import Mathlib

/-!
Shallow embedding of the IAQ decision engine:
`backend/action_selector.py` (IAQScoreCalculator, ActionSelector) and
`backend/ml/ml_predict_generic.py` (risk analysis of the realtime predictor).

Python floats are modelled by `FloatVal`: either NaN, +infinity, or an exact
rational. Every comparison involving NaN is false, as in IEEE-754 semantics,
which is what the Python code relies on. Python dicts keyed by strings are
modelled as association lists in insertion order; `dict[k]` (KeyError) is
`Option`-valued lookup, and exceptions that the code does not catch are
propagated as `none` results via the `Option` monad.
-/

/-- Model of a Python float value: NaN, positive infinity, or a finite rational. -/
inductive FloatVal where
  | nan
  | inf
  | fin (q : ℚ)
deriving DecidableEq

/-- IEEE-style `<=` on the float model: any comparison with NaN is false. -/
def FloatVal.fle : FloatVal → FloatVal → Prop
  | .nan, _ => False
  | _, .nan => False
  | .inf, .inf => True
  | .inf, .fin _ => False
  | .fin _, .inf => True
  | .fin a, .fin b => a ≤ b

/-- IEEE-style `<` on the float model: any comparison with NaN is false. -/
def FloatVal.flt : FloatVal → FloatVal → Prop
  | .nan, _ => False
  | _, .nan => False
  | .inf, _ => False
  | .fin _, .inf => True
  | .fin a, .fin b => a < b

instance (x y : FloatVal) : Decidable (FloatVal.fle x y) := by
  cases x <;> cases y <;> simp only [FloatVal.fle] <;> infer_instance

instance (x y : FloatVal) : Decidable (FloatVal.flt x y) := by
  cases x <;> cases y <;> simp only [FloatVal.flt] <;> infer_instance

/-- Python dict lookup `d[key]` / `d.get(key)` on an insertion-ordered assoc list. -/
def dictGet {α : Type} : List (String × α) → String → Option α
  | [], _ => none
  | (k, v) :: rest, key => if k = key then some v else dictGet rest key

/-- Python `d.get(key, default)`. -/
def dictGetD {α : Type} (l : List (String × α)) (key : String) (d : α) : α :=
  (dictGet l key).getD d

/-- Python `round` to an integer: round-half-to-even on exact rationals. -/
def roundHalfEven (q : ℚ) : ℤ :=
  let f := ⌊q⌋
  let r := q - f
  if r < 1 / 2 then f
  else if 1 / 2 < r then f + 1
  else if f % 2 = 0 then f else f + 1

/-- Python `round(q, ndigits)` on an exact rational. -/
def pyRound (ndigits : ℕ) (q : ℚ) : ℚ :=
  (roundHalfEven (q * 10 ^ ndigits) : ℚ) / 10 ^ ndigits

/-- Python `round(value, ndigits)` on a float: NaN and infinity pass through. -/
def pyRoundF (ndigits : ℕ) : FloatVal → FloatVal
  | .fin q => .fin (pyRound ndigits q)
  | v => v

/-- `PollutantType` enumeration of action_selector.py. -/
inductive PollutantType where
  | co2
  | pm25
  | tvoc
  | humidity
  | temperature
deriving DecidableEq

/-- The enum constructor `PollutantType(s)`; `none` models the `ValueError`. -/
def PollutantType.ofString : String → Option PollutantType
  | "co2" => some .co2
  | "pm25" => some .pm25
  | "tvoc" => some .tvoc
  | "humidity" => some .humidity
  | "temperature" => some .temperature
  | _ => none

/-- `IAQScoreCalculator.THRESHOLDS`: per pollutant, the ordered band table
`level -> (min, max)`. The dict has no entry for `temperature`, hence `none`. -/
def THRESHOLDS (p : PollutantType) : Option (List (String × FloatVal × FloatVal)) :=
  match p with
  | .co2 => some [("excellent", .fin 0, .fin 600), ("good", .fin 600, .fin 1000),
      ("moderate", .fin 1000, .fin 1400), ("poor", .fin 1400, .fin 2000),
      ("very_poor", .fin 2000, .inf)]
  | .pm25 => some [("excellent", .fin 0, .fin 12), ("good", .fin 12, .fin 25),
      ("moderate", .fin 25, .fin 50), ("poor", .fin 50, .fin 100),
      ("very_poor", .fin 100, .inf)]
  | .tvoc => some [("excellent", .fin 0, .fin 200), ("good", .fin 200, .fin 300),
      ("moderate", .fin 300, .fin 500), ("poor", .fin 500, .fin 1000),
      ("very_poor", .fin 1000, .inf)]
  | .humidity => some [("excellent", .fin 40, .fin 50), ("good", .fin 30, .fin 60),
      ("moderate", .fin 20, .fin 70), ("poor", .fin 10, .fin 80),
      ("very_poor", .fin 0, .fin 100)]
  | .temperature => none

/-- `IAQScoreCalculator.WEIGHTS`; no entry for `temperature`. -/
def WEIGHTS (p : PollutantType) : Option ℚ :=
  match p with
  | .co2 => some (35 / 100)
  | .pm25 => some (30 / 100)
  | .tvoc => some (25 / 100)
  | .humidity => some (10 / 100)
  | .temperature => none

/-- `IAQScoreCalculator.get_pollutant_score`. The `THRESHOLDS[pollutant]`
lookup raises `KeyError` for `temperature`, modelled as `none`. -/
def get_pollutant_score (pollutant : PollutantType) (value : FloatVal) : Option ℤ := do
  let thresholds ← THRESHOLDS pollutant
  if pollutant = .humidity then
    if FloatVal.fle (.fin 40) value ∧ FloatVal.fle value (.fin 50) then pure 100
    else if FloatVal.fle (.fin 30) value ∧ FloatVal.fle value (.fin 60) then pure 80
    else if FloatVal.fle (.fin 20) value ∧ FloatVal.fle value (.fin 70) then pure 60
    else if FloatVal.fle (.fin 10) value ∧ FloatVal.fle value (.fin 80) then pure 40
    else pure 20
  else do
    let excellent ← dictGet thresholds "excellent"
    let good ← dictGet thresholds "good"
    let moderate ← dictGet thresholds "moderate"
    let poor ← dictGet thresholds "poor"
    if FloatVal.fle value excellent.2 then pure 100
    else if FloatVal.fle value good.2 then pure 80
    else if FloatVal.fle value moderate.2 then pure 60
    else if FloatVal.fle value poor.2 then pure 40
    else pure 20

/-- The `for level, (min_val, max_val) in thresholds.items()` loop of
`get_pollutant_level`: first band with `min_val <= value < max_val`,
falling through to `"very_poor"`. -/
def levelScan (value : FloatVal) : List (String × FloatVal × FloatVal) → String
  | [] => "very_poor"
  | (level, min_val, max_val) :: rest =>
    if FloatVal.fle min_val value ∧ FloatVal.flt value max_val then level
    else levelScan value rest

/-- `IAQScoreCalculator.get_pollutant_level`. -/
def get_pollutant_level (pollutant : PollutantType) (value : FloatVal) : Option String := do
  let thresholds ← THRESHOLDS pollutant
  if pollutant = .humidity then
    if FloatVal.fle (.fin 40) value ∧ FloatVal.fle value (.fin 50) then pure "excellent"
    else if FloatVal.fle (.fin 30) value ∧ FloatVal.fle value (.fin 60) then pure "good"
    else if FloatVal.fle (.fin 20) value ∧ FloatVal.fle value (.fin 70) then pure "moderate"
    else if FloatVal.fle (.fin 10) value ∧ FloatVal.fle value (.fin 80) then pure "poor"
    else pure "very_poor"
  else
    pure (levelScan value thresholds)

/-- One row of the `pollutants_details` map of `calculate_global_score`. -/
structure PollutantDetail where
  value : FloatVal
  score : ℤ
  level : String
  weight : ℚ
deriving DecidableEq

/-- One row of the `problematic` list of `calculate_global_score`. -/
structure ProblemRec where
  pollutant : String
  value : FloatVal
  score : ℤ
  level : String
deriving DecidableEq

/-- The dict returned by `calculate_global_score`. -/
structure GlobalResult where
  global_score : ℚ
  global_level : String
  pollutants_details : List (String × PollutantDetail)
  problematic_pollutants : List ProblemRec
deriving DecidableEq

/-- Loop state of `calculate_global_score`: `weighted_score`,
`pollutants_details`, `problematic`. -/
structure CalcAcc where
  weighted_score : ℚ
  pollutants_details : List (String × PollutantDetail)
  problematic : List ProblemRec
deriving DecidableEq

/-- One iteration of the `for pollutant_str, value in predictions.items()` loop.
An unknown pollutant string (`ValueError`) and a pollutant without a weight are
skipped; a `KeyError` escaping the `except ValueError` handler is `none`. -/
def calcEntry (acc : CalcAcc) (entry : String × FloatVal) : Option CalcAcc :=
  match PollutantType.ofString entry.1 with
  | none => some acc
  | some pollutant =>
    match WEIGHTS pollutant with
    | none => some acc
    | some weight => do
      let score ← get_pollutant_score pollutant entry.2
      let level ← get_pollutant_level pollutant entry.2
      some { weighted_score := acc.weighted_score + (score : ℚ) * weight
             pollutants_details := acc.pollutants_details ++
               [(entry.1, ⟨pyRoundF 2 entry.2, score, level, weight⟩)]
             problematic := acc.problematic ++
               (if score < 60 then [⟨entry.1, entry.2, score, level⟩] else []) }

/-- `IAQScoreCalculator.calculate_global_score`. -/
def calculate_global_score (predictions : List (String × FloatVal)) : Option GlobalResult := do
  let acc ← predictions.foldlM calcEntry ⟨0, [], []⟩
  let global_level :=
    if 80 ≤ acc.weighted_score then "good"
    else if 60 ≤ acc.weighted_score then "moderate"
    else if 40 ≤ acc.weighted_score then "poor"
    else "very_poor"
  some { global_score := pyRound 1 acc.weighted_score
         global_level := global_level
         pollutants_details := acc.pollutants_details
         problematic_pollutants := acc.problematic }

/-- The `predictions` dict of `example_usage` (also the worked example of the spec). -/
def examplePredictions : List (String × FloatVal) :=
  [("co2", .fin 1450), ("pm25", .fin 15), ("tvoc", .fin 650), ("humidity", .fin 45)]

/-- One pollutant's entry of `CRITICAL_THRESHOLDS` in ml_predict_generic.py. -/
structure RiskThresholds where
  warning : ℚ
  critical : ℚ
  danger : ℚ
deriving DecidableEq

/-- `CRITICAL_THRESHOLDS` of ml_predict_generic.py; `none` models `KeyError`. -/
def CRITICAL_THRESHOLDS : String → Option RiskThresholds
  | "co2" => some ⟨1000, 1400, 2000⟩
  | "pm25" => some ⟨25, 50, 100⟩
  | "tvoc" => some ⟨300, 500, 1000⟩
  | "humidity" => some ⟨60, 80, 90⟩
  | "temperature" => some ⟨25, 30, 35⟩
  | _ => none

/-- `RECOMMENDED_ACTIONS` of ml_predict_generic.py (message per metric and level). -/
def RECOMMENDED_ACTIONS : String → Option (List (String × String))
  | "co2" => some [("warning", "Augmenter la ventilation"),
      ("critical", "Ouvrir les fenêtres immédiatement"),
      ("danger", "Évacuer la pièce et aérer complètement")]
  | "pm25" => some [("warning", "Activer le purificateur d\x27air"),
      ("critical", "Purificateur à puissance maximale + ventilation"),
      ("danger", "Éviter la pièce, purification intensive requise")]
  | "tvoc" => some [("warning", "Aérer la pièce pendant 15 minutes"),
      ("critical", "Ventilation intensive + identifier la source"),
      ("danger", "Évacuer et ventiler complètement la zone")]
  | _ => none

/-- `RealtimeGenericPredictor._get_risk_level`. -/
def _get_risk_level (value : ℚ) (thresholds : RiskThresholds) : String :=
  if thresholds.danger ≤ value then "danger"
  else if thresholds.critical ≤ value then "critical"
  else if thresholds.warning ≤ value then "warning"
  else "good"

/-- The `risks[metric]` record built by `analyze_risks`. -/
structure RiskRec where
  current_value : ℚ
  predicted_value : ℚ
  current_level : String
  predicted_level : String
  trend : String
  change_percent : ℚ
deriving DecidableEq

/-- One element of the `actions_needed` list built by `analyze_risks`. -/
structure RiskActionRec where
  metric : String
  level : String
  action : String
  priority : String
  estimated_time_to_critical : String
deriving DecidableEq

/-- Body of the `for metric in ['co2', 'pm25', 'tvoc']` loop of `analyze_risks`,
for a metric whose current and predicted values are both present.
`forecast_minutes` is the raw config value (number of 5-minute steps). -/
def processMetric (metric : String) (current_val predicted_val : ℚ)
    (forecast_minutes : ℕ) : Option (RiskRec × List RiskActionRec) := do
  let thresholds ← CRITICAL_THRESHOLDS metric
  let current_level := _get_risk_level current_val thresholds
  let predicted_level := _get_risk_level predicted_val thresholds
  let trend := if current_val < predicted_val then "increasing" else "decreasing"
  let risk : RiskRec :=
    { current_value := pyRound 2 current_val
      predicted_value := pyRound 2 predicted_val
      current_level := current_level
      predicted_level := predicted_level
      trend := trend
      change_percent :=
        if 0 < current_val then pyRound 2 ((predicted_val - current_val) / current_val * 100)
        else 0 }
  if (current_level = "critical" ∨ current_level = "danger") ∧ trend = "increasing" then do
    let msgs ← RECOMMENDED_ACTIONS metric
    let msg ← dictGet msgs current_level
    pure (risk, [⟨metric, current_level, msg, "urgent",
      "Maintenant - déjà critique et en augmentation"⟩])
  else if (current_level = "critical" ∨ current_level = "danger") ∧ trend = "decreasing" then
    if predicted_level = "critical" ∨ predicted_level = "danger" then do
      let msgs ← RECOMMENDED_ACTIONS metric
      let msg ← dictGet msgs current_level
      pure (risk, [⟨metric, current_level, msg, "high",
        "Actuellement critique, amélioration prévue"⟩])
    else pure (risk, [])
  else if (predicted_level = "critical" ∨ predicted_level = "danger") ∧
      ¬(current_level = "critical" ∨ current_level = "danger") then do
    let msgs ← RECOMMENDED_ACTIONS metric
    let msg ← dictGet msgs predicted_level
    pure (risk, [⟨metric, predicted_level, msg,
      if predicted_level = "danger" then "high" else "medium",
      toString (forecast_minutes * 5) ++ " minutes"⟩])
  else pure (risk, [])

/-- `RealtimeGenericPredictor._get_overall_status`. -/
def _get_overall_status (risks : List (String × RiskRec)) : String :=
  let levels := risks.map (fun r => r.2.predicted_level)
  if "danger" ∈ levels then "danger"
  else if "critical" ∈ levels then "critical"
  else if "warning" ∈ levels then "warning"
  else "good"

/-- Result dict of `analyze_risks`. -/
structure RiskAnalysis where
  metrics : List (String × RiskRec)
  actions_needed : List RiskActionRec
  overall_status : String
deriving DecidableEq

/-- `RealtimeGenericPredictor.analyze_risks`. Metrics missing a current or
predicted value are skipped. -/
def analyze_risks (current predicted : List (String × ℚ))
    (forecast_minutes : ℕ) : Option RiskAnalysis := do
  let step := fun (acc : List (String × RiskRec) × List RiskActionRec) (metric : String) =>
    match dictGet current metric, dictGet predicted metric with
    | some c, some p => do
        let r ← processMetric metric c p forecast_minutes
        pure (acc.1 ++ [(metric, r.1)], acc.2 ++ r.2)
    | _, _ => pure acc
  let res ← ["co2", "pm25", "tvoc"].foldlM step ([], [])
  pure ⟨res.1, res.2, _get_overall_status res.1⟩


/-- `ActionType` enumeration of action_selector.py. -/
inductive ActionType where
  | OUVRIR_FENETRE
  | FERMER_FENETRE
  | ACTIVER_VENTILATION
  | DESACTIVER_VENTILATION
  | ACTIVER_CLIM
  | DESACTIVER_CLIM
  | ACTIVER_PURIFICATEUR
  | DESACTIVER_PURIFICATEUR
  | AUGMENTER_VENTILATION
  | REDUIRE_VENTILATION
  | AJUSTER_TEMPERATURE
deriving DecidableEq

/-- The `.value` string of each `ActionType` member. -/
def ActionType.value : ActionType → String
  | .OUVRIR_FENETRE => "ouvrir_fenetre"
  | .FERMER_FENETRE => "fermer_fenetre"
  | .ACTIVER_VENTILATION => "activer_ventilation"
  | .DESACTIVER_VENTILATION => "desactiver_ventilation"
  | .ACTIVER_CLIM => "activer_clim"
  | .DESACTIVER_CLIM => "desactiver_clim"
  | .ACTIVER_PURIFICATEUR => "activer_purificateur"
  | .DESACTIVER_PURIFICATEUR => "desactiver_purificateur"
  | .AUGMENTER_VENTILATION => "augmenter_ventilation"
  | .REDUIRE_VENTILATION => "reduire_ventilation"
  | .AJUSTER_TEMPERATURE => "ajuster_temperature"

/-- `ModuleCapability` dataclass. -/
structure ModuleCapability where
  module_type : String
  is_available : Bool
  can_control : Bool
  current_state : Option String
  power_levels : Option (List ℤ)
deriving DecidableEq

/-- `RoomModules` dataclass. -/
structure RoomModules where
  enseigne : String
  salle : String
  modules : List (String × ModuleCapability)
deriving DecidableEq

/-- `RoomModules.has_module`: the module exists, is available and controllable. -/
def RoomModules.has_module (self : RoomModules) (module_type : String) : Bool :=
  match dictGet self.modules module_type with
  | none => false
  | some m => m.is_available && m.can_control

/-- One entry of `ActionSelector.ACTION_RULES`; `secondary` defaults to `[]`
as in `rules.get("secondary", [])`. -/
structure ActionRule where
  primary : List String
  secondary : List String
  actions : List (String × List ActionType)
deriving DecidableEq

/-- `ActionSelector.ACTION_RULES`; `none` models `ACTION_RULES.get(p)` failing. -/
def ACTION_RULES : PollutantType → Option ActionRule
  | .co2 => some ⟨["fenetre", "ventilation"], [],
      [("fenetre", [.OUVRIR_FENETRE]),
       ("ventilation", [.ACTIVER_VENTILATION, .AUGMENTER_VENTILATION])]⟩
  | .pm25 => some ⟨["purificateur"], ["ventilation"],
      [("purificateur", [.ACTIVER_PURIFICATEUR]),
       ("ventilation", [.ACTIVER_VENTILATION])]⟩
  | .tvoc => some ⟨["fenetre", "ventilation", "purificateur"], [],
      [("fenetre", [.OUVRIR_FENETRE]),
       ("ventilation", [.ACTIVER_VENTILATION, .AUGMENTER_VENTILATION]),
       ("purificateur", [.ACTIVER_PURIFICATEUR])]⟩
  | .humidity => some ⟨["ventilation", "clim"], [],
      [("ventilation", [.ACTIVER_VENTILATION]),
       ("clim", [.ACTIVER_CLIM])]⟩
  | .temperature => none

/-- The `reason` sub-dict of a generated action. -/
structure ActionReason where
  pollutant : String
  value : FloatVal
  level : String
deriving DecidableEq

/-- The action dict built by `ActionSelector._create_action`. -/
structure ActionRec where
  action_type : String
  module_type : String
  enseigne : String
  salle : String
  reason : ActionReason
  priority : String
  parameters : List (String × ℤ)
deriving DecidableEq

/-- `ActionSelector._get_priority`. -/
def _get_priority (level : String) : String :=
  dictGetD [("very_poor", "urgent"), ("poor", "high"),
    ("moderate", "medium"), ("good", "low")] level "medium"

/-- Python `max` over a nonempty integer list (head plus tail). -/
def listMax (x : ℤ) : List ℤ → ℤ
  | [] => x
  | y :: rest => listMax (max x y) rest

/-- `ActionSelector._create_action`. Returns `none` when the module is absent
or not controllable. An empty or missing `power_levels` list is falsy in
Python, so no `power_level` parameter is added. -/
def _create_action (action_type : ActionType) (module_type : String) (pollutant : String)
    (value : FloatVal) (level : String) (room_modules : RoomModules) : Option ActionRec :=
  match dictGet room_modules.modules module_type with
  | none => none
  | some m =>
    if !m.can_control then none
    else
      let parameters : List (String × ℤ) :=
        if action_type = .AUGMENTER_VENTILATION ∨ action_type = .ACTIVER_VENTILATION then
          match m.power_levels with
          | some (x :: rest) =>
            if level = "very_poor" then [("power_level", listMax x rest)]
            else if level = "poor" then [("power_level", listMax x rest - 1)]
            else [("power_level", Int.fdiv (listMax x rest) 2)]
          | _ => []
        else if action_type = .AJUSTER_TEMPERATURE then [("target_temperature", 22)]
        else []
      some { action_type := action_type.value
             module_type := module_type
             enseigne := room_modules.enseigne
             salle := room_modules.salle
             reason := ⟨pollutant, pyRoundF 2 value, level⟩
             priority := _get_priority level
             parameters := parameters }

/-- Inner `for action_type in module_actions` loop of `select_actions`:
first action type whose `_create_action` result is truthy. -/
def tryActionTypes (module_actions : List ActionType) (module_type : String)
    (pollutant : String) (value : FloatVal) (level : String)
    (room_modules : RoomModules) : Option ActionRec :=
  match module_actions with
  | [] => none
  | action_type :: rest =>
    match _create_action action_type module_type pollutant value level room_modules with
    | some action => some action
    | none => tryActionTypes rest module_type pollutant value level room_modules

/-- The `for module_type in primary_modules` loop: if a usable module yields no
action, `action_found` stays false and the scan continues with later modules. -/
def scanPrimary (modules : List String) (rules : ActionRule) (pollutant : String)
    (value : FloatVal) (level : String) (room_modules : RoomModules) : Option ActionRec :=
  match modules with
  | [] => none
  | module_type :: rest =>
    if room_modules.has_module module_type then
      match tryActionTypes (dictGetD rules.actions module_type []) module_type
          pollutant value level room_modules with
      | some action => some action
      | none => scanPrimary rest rules pollutant value level room_modules
    else scanPrimary rest rules pollutant value level room_modules

/-- The `for module_type in secondary_modules` loop: the unconditional `break`
stops the scan at the first usable module whether or not it yields an action. -/
def scanSecondary (modules : List String) (rules : ActionRule) (pollutant : String)
    (value : FloatVal) (level : String) (room_modules : RoomModules) : Option ActionRec :=
  match modules with
  | [] => none
  | module_type :: rest =>
    if room_modules.has_module module_type then
      tryActionTypes (dictGetD rules.actions module_type []) module_type
        pollutant value level room_modules
    else scanSecondary rest rules pollutant value level room_modules

/-- Body of the `for problem in problematic` loop of `select_actions`:
the actions (zero or one) appended for one problematic pollutant. -/
def selectForProblem (problem : ProblemRec) (room_modules : RoomModules) : List ActionRec :=
  match PollutantType.ofString problem.pollutant with
  | none => []
  | some pollutant_enum =>
    match ACTION_RULES pollutant_enum with
    | none => []
    | some rules =>
      match scanPrimary rules.primary rules problem.pollutant problem.value
          problem.level room_modules with
      | some action => [action]
      | none =>
        match scanSecondary rules.secondary rules problem.pollutant problem.value
            problem.level room_modules with
        | some action => [action]
        | none => []

/-- `ActionSelector.select_actions`. -/
def select_actions (iaq_analysis : GlobalResult) (room_modules : RoomModules) : List ActionRec :=
  iaq_analysis.problematic_pollutants.foldl
    (fun acc problem => acc ++ selectForProblem problem room_modules) []

/-- Bands of `THRESHOLDS[p]` with a finite upper bound, paired with that bound
(the inclusive cutoffs used by `get_pollutant_score`). -/
def bandCutoffs (p : PollutantType) : List (String × ℚ) :=
  match THRESHOLDS p with
  | none => []
  | some bands => bands.filterMap (fun b =>
      match b with
      | (name, _, FloatVal.fin c) => some (name, c)
      | _ => none)

/-- The ScoreBand pairing of the spec: each qualitative level and its score. -/
def pairedScore : String → ℤ
  | "excellent" => 100
  | "good" => 80
  | "moderate" => 60
  | "poor" => 40
  | _ => 20

/-- The band following a given band in the ordered ScoreBand scale. -/
def nextBand : String → String
  | "excellent" => "good"
  | "good" => "moderate"
  | "moderate" => "poor"
  | _ => "very_poor"

/-- C2 counterexample: a negative CO2 value scores 100 (best bucket), not 20,
because `value <= 600` already holds, so the claimed worst-bucket behaviour
for negative monotone-pollutant values is false. -/
theorem c2_counterexample :
    get_pollutant_score .co2 (.fin (-1)) = some 100 ∧
    get_pollutant_score .co2 (.fin (-1)) ≠ some 20 := by
  constructor
  · simp [get_pollutant_score, THRESHOLDS, dictGet, FloatVal.fle]
    norm_num
  · simp [get_pollutant_score, THRESHOLDS, dictGet, FloatVal.fle]
    norm_num

/-- C2 (amended): for the four scored pollutant kinds, NaN yields score 20 and
level `very_poor` without error; a negative co2/pm25/tvoc value yields level
`very_poor` but score 100 (the best bucket); a negative humidity value yields
score 20 and level `very_poor`. -/
theorem c2_amended_malformed_values :
    (∀ p, p ∈ [PollutantType.co2, .pm25, .tvoc, .humidity] →
      get_pollutant_score p .nan = some 20 ∧
      get_pollutant_level p .nan = some "very_poor") ∧
    (∀ p, p ∈ [PollutantType.co2, .pm25, .tvoc] → ∀ q : ℚ, q < 0 →
      get_pollutant_score p (.fin q) = some 100 ∧
      get_pollutant_level p (.fin q) = some "very_poor") ∧
    (∀ q : ℚ, q < 0 →
      get_pollutant_score .humidity (.fin q) = some 20 ∧
      get_pollutant_level .humidity (.fin q) = some "very_poor") := by
  refine ⟨?_, ?_, ?_⟩
  · intro p hp
    simp only [List.mem_cons, List.not_mem_nil, or_false] at hp
    rcases hp with rfl | rfl | rfl | rfl <;>
      simp [get_pollutant_score, get_pollutant_level, THRESHOLDS, dictGet,
        levelScan, FloatVal.fle, FloatVal.flt]
  · intro p hp q hq
    simp only [List.mem_cons, List.not_mem_nil, or_false] at hp
    have h600 : q ≤ 600 := by linarith
    have h12 : q ≤ 12 := by linarith
    have h200 : q ≤ 200 := by linarith
    have h0 : ¬(0 : ℚ) ≤ q := by linarith
    have hn12 : ¬(12 : ℚ) ≤ q := by linarith
    have hn25 : ¬(25 : ℚ) ≤ q := by linarith
    have hn50 : ¬(50 : ℚ) ≤ q := by linarith
    have hn100 : ¬(100 : ℚ) ≤ q := by linarith
    have hn200 : ¬(200 : ℚ) ≤ q := by linarith
    have hn300 : ¬(300 : ℚ) ≤ q := by linarith
    have hn500 : ¬(500 : ℚ) ≤ q := by linarith
    have hn600 : ¬(600 : ℚ) ≤ q := by linarith
    have hn1000 : ¬(1000 : ℚ) ≤ q := by linarith
    have hn1400 : ¬(1400 : ℚ) ≤ q := by linarith
    have hn2000 : ¬(2000 : ℚ) ≤ q := by linarith
    rcases hp with rfl | rfl | rfl <;>
      simp [get_pollutant_score, get_pollutant_level, THRESHOLDS, dictGet,
        levelScan, FloatVal.fle, FloatVal.flt, h600, h12, h200, h0, hn12, hn25,
        hn50, hn100, hn200, hn300, hn500, hn600, hn1000, hn1400, hn2000]
  · intro q hq
    have h10 : ¬(10 : ℚ) ≤ q := by linarith
    have h20 : ¬(20 : ℚ) ≤ q := by linarith
    have h30 : ¬(30 : ℚ) ≤ q := by linarith
    have h40 : ¬(40 : ℚ) ≤ q := by linarith
    have h0 : ¬(0 : ℚ) ≤ q := by linarith
    simp [get_pollutant_score, get_pollutant_level, THRESHOLDS, dictGet,
      levelScan, FloatVal.fle, FloatVal.flt, h10, h20, h30, h40, h0]

/-- C2 witness: the amended behaviour at concrete inputs (NaN co2 and co2 = -5). -/
theorem c2_amended_malformed_values_witness :
    (get_pollutant_score .co2 .nan = some 20 ∧
      get_pollutant_level .co2 .nan = some "very_poor") ∧
    (get_pollutant_score .co2 (.fin (-5)) = some 100 ∧
      get_pollutant_level .co2 (.fin (-5)) = some "very_poor") :=
  ⟨c2_amended_malformed_values.1 .co2 (by simp),
   c2_amended_malformed_values.2.1 .co2 (by simp) (-5) (by norm_num)⟩

/-- C3: for the monotone pollutants, `get_pollutant_score` uses inclusive upper
bounds while `get_pollutant_level` uses half-open bands, so at every finite band
cutoff the score is the better band's paired score while the level is the next
(worse) band, violating the ScoreBand pairing; and every negative value gets
score 100 but level `very_poor`. -/
theorem c3_cutoff_score_level_mismatch :
    (∀ p, p ∈ [PollutantType.co2, .pm25, .tvoc] → ∀ name c,
      (name, c) ∈ bandCutoffs p →
      get_pollutant_score p (.fin c) = some (pairedScore name) ∧
      get_pollutant_level p (.fin c) = some (nextBand name) ∧
      pairedScore (nextBand name) ≠ pairedScore name) ∧
    (∀ p, p ∈ [PollutantType.co2, .pm25, .tvoc] → ∀ q : ℚ, q < 0 →
      get_pollutant_score p (.fin q) = some 100 ∧
      get_pollutant_level p (.fin q) = some "very_poor") := by
  constructor
  · intro p hp name c hmem
    simp only [List.mem_cons, List.not_mem_nil, or_false] at hp
    rcases hp with rfl | rfl | rfl <;>
      · simp only [bandCutoffs, THRESHOLDS, List.filterMap] at hmem
        simp only [List.mem_cons, List.not_mem_nil, or_false, Prod.mk.injEq] at hmem
        rcases hmem with ⟨rfl, rfl⟩ | ⟨rfl, rfl⟩ | ⟨rfl, rfl⟩ | ⟨rfl, rfl⟩ <;>
          refine ⟨?_, ?_, ?_⟩ <;>
          simp [get_pollutant_score, get_pollutant_level, THRESHOLDS, dictGet,
            levelScan, FloatVal.fle, FloatVal.flt, pairedScore, nextBand] <;>
          norm_num
  · exact c2_amended_malformed_values.2.1

/-- C3 witness: the mismatch at co2 = 600 (score 100 = excellent, level good). -/
theorem c3_cutoff_score_level_mismatch_witness :
    get_pollutant_score .co2 (.fin 600) = some (pairedScore "excellent") ∧
    get_pollutant_level .co2 (.fin 600) = some (nextBand "excellent") ∧
    pairedScore (nextBand "excellent") ≠ pairedScore "excellent" :=
  c3_cutoff_score_level_mismatch.1 .co2 (by simp) "excellent" 600 (by
    simp [bandCutoffs, THRESHOLDS])

/-- Closed form of `get_pollutant_score` for a finite CO2 value. -/
theorem score_co2_fin (q : ℚ) : get_pollutant_score .co2 (.fin q) =
    some (if q ≤ 600 then 100 else if q ≤ 1000 then 80 else if q ≤ 1400 then 60
      else if q ≤ 2000 then 40 else 20) := by
  simp [get_pollutant_score, THRESHOLDS, dictGet, FloatVal.fle]
  split_ifs <;> rfl

/-- Closed form of `get_pollutant_score` for a finite PM2.5 value. -/
theorem score_pm25_fin (q : ℚ) : get_pollutant_score .pm25 (.fin q) =
    some (if q ≤ 12 then 100 else if q ≤ 25 then 80 else if q ≤ 50 then 60
      else if q ≤ 100 then 40 else 20) := by
  simp [get_pollutant_score, THRESHOLDS, dictGet, FloatVal.fle]
  split_ifs <;> rfl

/-- Closed form of `get_pollutant_score` for a finite TVOC value. -/
theorem score_tvoc_fin (q : ℚ) : get_pollutant_score .tvoc (.fin q) =
    some (if q ≤ 200 then 100 else if q ≤ 300 then 80 else if q ≤ 500 then 60
      else if q ≤ 1000 then 40 else 20) := by
  simp [get_pollutant_score, THRESHOLDS, dictGet, FloatVal.fle]
  split_ifs <;> rfl

/-- Closed form of `get_pollutant_score` for a finite humidity value. -/
theorem score_humidity_fin (q : ℚ) : get_pollutant_score .humidity (.fin q) =
    some (if 40 ≤ q ∧ q ≤ 50 then 100 else if 30 ≤ q ∧ q ≤ 60 then 80
      else if 20 ≤ q ∧ q ≤ 70 then 60 else if 10 ≤ q ∧ q ≤ 80 then 40 else 20) := by
  simp [get_pollutant_score, THRESHOLDS, FloatVal.fle]
  split_ifs <;> rfl

/-- C9: whenever `get_pollutant_score` returns a score it lies in [0, 100], and
for the monotone pollutants co2/pm25/tvoc the score is non-increasing in the
value. (For `temperature` the function raises `KeyError` and returns nothing.) -/
theorem c9_score_bounds_and_monotone :
    (∀ (p : PollutantType) (v : FloatVal) (s : ℤ),
      get_pollutant_score p v = some s → 0 ≤ s ∧ s ≤ 100) ∧
    (∀ p, p ∈ [PollutantType.co2, .pm25, .tvoc] → ∀ q1 q2 : ℚ, q1 ≤ q2 →
      ∀ s1 s2, get_pollutant_score p (.fin q1) = some s1 →
        get_pollutant_score p (.fin q2) = some s2 → s2 ≤ s1) := by
  constructor
  · intro p v s h
    cases v with
    | fin q =>
      cases p
      · rw [score_co2_fin, Option.some.injEq] at h; subst h; split_ifs <;> omega
      · rw [score_pm25_fin, Option.some.injEq] at h; subst h; split_ifs <;> omega
      · rw [score_tvoc_fin, Option.some.injEq] at h; subst h; split_ifs <;> omega
      · rw [score_humidity_fin, Option.some.injEq] at h; subst h; split_ifs <;> omega
      · simp [get_pollutant_score, THRESHOLDS] at h
    | nan =>
      cases p <;>
        simp [get_pollutant_score, THRESHOLDS, dictGet, FloatVal.fle] at h <;> omega
    | inf =>
      cases p <;>
        simp [get_pollutant_score, THRESHOLDS, dictGet, FloatVal.fle] at h <;> omega
  · intro p hp q1 q2 hq s1 s2 h1 h2
    simp only [List.mem_cons, List.not_mem_nil, or_false] at hp
    rcases hp with rfl | rfl | rfl
    · rw [score_co2_fin, Option.some.injEq] at h1 h2
      subst h1; subst h2
      split_ifs <;> first | omega | (exfalso; linarith)
    · rw [score_pm25_fin, Option.some.injEq] at h1 h2
      subst h1; subst h2
      split_ifs <;> first | omega | (exfalso; linarith)
    · rw [score_tvoc_fin, Option.some.injEq] at h1 h2
      subst h1; subst h2
      split_ifs <;> first | omega | (exfalso; linarith)

/-- C9 witness: bounds at co2 = 1450 and monotonicity between co2 = 1450 and 2500. -/
theorem c9_score_bounds_and_monotone_witness :
    (0 ≤ (40 : ℤ) ∧ (40 : ℤ) ≤ 100) ∧ ((20 : ℤ) ≤ 40) :=
  ⟨c9_score_bounds_and_monotone.1 .co2 (.fin 1450) 40 (by rw [score_co2_fin]; norm_num),
   c9_score_bounds_and_monotone.2 .co2 (by simp) 1450 2500 (by norm_num) 40 20
     (by rw [score_co2_fin]; norm_num) (by rw [score_co2_fin]; norm_num)⟩

/-- Full evaluation of `calculate_global_score` on the example input
`{co2: 1450, pm25: 15, tvoc: 650, humidity: 45}`. -/
theorem exampleEvaluation : calculate_global_score examplePredictions = some
    { global_score := 58
      global_level := "poor"
      pollutants_details := [
        ("co2", ⟨.fin 1450, 40, "poor", 35 / 100⟩),
        ("pm25", ⟨.fin 15, 80, "good", 30 / 100⟩),
        ("tvoc", ⟨.fin 650, 40, "poor", 25 / 100⟩),
        ("humidity", ⟨.fin 45, 100, "excellent", 10 / 100⟩)]
      problematic_pollutants := [⟨"co2", .fin 1450, 40, "poor"⟩,
        ⟨"tvoc", .fin 650, 40, "poor"⟩] } := by
  have h1450 : pyRoundF 2 (.fin 1450) = .fin 1450 := by
    unfold pyRoundF pyRound roundHalfEven; norm_num
  have h15 : pyRoundF 2 (.fin 15) = .fin 15 := by
    unfold pyRoundF pyRound roundHalfEven; norm_num
  have h650 : pyRoundF 2 (.fin 650) = .fin 650 := by
    unfold pyRoundF pyRound roundHalfEven; norm_num
  have h45 : pyRoundF 2 (.fin 45) = .fin 45 := by
    unfold pyRoundF pyRound roundHalfEven; norm_num
  have hscore : pyRound 1 (58 : ℚ) = 58 := by
    unfold pyRound roundHalfEven; norm_num
  simp [calculate_global_score, examplePredictions, List.foldlM, calcEntry,
    PollutantType.ofString, WEIGHTS, get_pollutant_score, get_pollutant_level,
    THRESHOLDS, dictGet, levelScan, FloatVal.fle, FloatVal.flt,
    h1450, h15, h650, h45, hscore]
  try exact hscore
  try norm_num [pyRound, roundHalfEven]

/-- C1 counterexample: on the spec example input the code yields a pm25
sub-score of 80 (band `good`, since 15 > 12) and a global score of 58.0
(level `poor`), not the claimed pm25 = 100 and global 64.0 `moderate`. -/
theorem c1_counterexample :
    (calculate_global_score examplePredictions).map GlobalResult.global_score = some 58 ∧
    (calculate_global_score examplePredictions).map GlobalResult.global_score ≠ some 64 ∧
    ((calculate_global_score examplePredictions).bind
      (fun r => dictGet r.pollutants_details "pm25")).map PollutantDetail.score
      = some 80 := by
  rw [exampleEvaluation]
  refine ⟨by norm_num, ?_, by simp [dictGet]⟩
  simp only [Option.map_some, Option.some.injEq, ne_eq]
  norm_num

/-- C1 (amended): the example input evaluates to sub-scores co2 40, pm25 80,
tvoc 40, humidity 100, global score 58.0, level `poor`, and problematic
pollutants [co2, tvoc] in that order. -/
theorem c1_amended_example :
    calculate_global_score examplePredictions = some
      { global_score := 58
        global_level := "poor"
        pollutants_details := [
          ("co2", ⟨.fin 1450, 40, "poor", 35 / 100⟩),
          ("pm25", ⟨.fin 15, 80, "good", 30 / 100⟩),
          ("tvoc", ⟨.fin 650, 40, "poor", 25 / 100⟩),
          ("humidity", ⟨.fin 45, 100, "excellent", 10 / 100⟩)]
        problematic_pollutants := [⟨"co2", .fin 1450, 40, "poor"⟩,
          ⟨"tvoc", .fin 650, 40, "poor"⟩] } :=
  exampleEvaluation

/-- A pollutant kind that carries a weight is not `temperature`. -/
theorem weights_ne_temperature (p : PollutantType) (w : ℚ) (h : WEIGHTS p = some w) :
    p ≠ .temperature := by
  cases p <;> simp [WEIGHTS] at h ⊢

/-- For every kind except `temperature`, `get_pollutant_score` returns a score. -/
theorem score_isSome (p : PollutantType) (v : FloatVal) (hp : p ≠ .temperature) :
    ∃ s, get_pollutant_score p v = some s := by
  cases p
  case temperature => exact absurd rfl hp
  all_goals
    simp [get_pollutant_score, THRESHOLDS, dictGet] <;> split_ifs <;> simp

/-- For every kind except `temperature`, `get_pollutant_level` returns a level. -/
theorem level_isSome (p : PollutantType) (v : FloatVal) (hp : p ≠ .temperature) :
    ∃ l, get_pollutant_level p v = some l := by
  cases p
  case temperature => exact absurd rfl hp
  all_goals
    simp [get_pollutant_level, THRESHOLDS, dictGet] <;> split_ifs <;> simp

/-- Weighted contribution of one reading to the global score, per the spec
formula: score times weight when the key parses to a weighted kind, else 0. -/
def entryContribution (entry : String × FloatVal) : ℚ :=
  match PollutantType.ofString entry.1 with
  | none => 0
  | some p =>
    match WEIGHTS p, get_pollutant_score p entry.2 with
    | some w, some s => (s : ℚ) * w
    | _, _ => 0

/-- The spec formula: sum of score times weight over the included readings. -/
def specWeightedSum (predictions : List (String × FloatVal)) : ℚ :=
  (predictions.map entryContribution).sum

/-- A reading is included iff its key parses to a kind that carries a weight. -/
def specIncluded (entry : String × FloatVal) : Bool :=
  match PollutantType.ofString entry.1 with
  | some p => (WEIGHTS p).isSome
  | none => false

/-- Included pollutant keys whose sub-score is strictly below 60, in input order. -/
def specProblemKeys (predictions : List (String × FloatVal)) : List String :=
  predictions.filterMap (fun entry =>
    match PollutantType.ofString entry.1 with
    | none => none
    | some p =>
      match WEIGHTS p, get_pollutant_score p entry.2 with
      | some _, some s => if s < 60 then some entry.1 else none
      | _, _ => none)

/-- The global-level bucketing of the claim: at least 80 is good, at least 60
moderate, at least 40 poor, otherwise very_poor. -/
def specGlobalLevel (score : ℚ) : String :=
  if 80 ≤ score then "good"
  else if 60 ≤ score then "moderate"
  else if 40 ≤ score then "poor"
  else "very_poor"

/-- Characterization of one `calculate_global_score` loop iteration. -/
theorem calcEntry_eq (acc : CalcAcc) (entry : String × FloatVal) :
    ∃ acc2, calcEntry acc entry = some acc2 ∧
      acc2.weighted_score = acc.weighted_score + entryContribution entry ∧
      acc2.pollutants_details.map Prod.fst = acc.pollutants_details.map Prod.fst ++
        (if specIncluded entry then [entry.1] else []) ∧
      acc2.problematic.map ProblemRec.pollutant =
        acc.problematic.map ProblemRec.pollutant ++ specProblemKeys [entry] := by
  cases hparse : PollutantType.ofString entry.1 with
  | none =>
    refine ⟨acc, ?_, ?_, ?_, ?_⟩ <;>
      simp [calcEntry, entryContribution, specIncluded, specProblemKeys, hparse]
  | some p =>
    cases hw : WEIGHTS p with
    | none =>
      refine ⟨acc, ?_, ?_, ?_, ?_⟩ <;>
        simp [calcEntry, entryContribution, specIncluded, specProblemKeys, hparse, hw]
    | some w =>
      obtain ⟨s, hs⟩ := score_isSome p entry.2 (weights_ne_temperature p w hw)
      obtain ⟨l, hl⟩ := level_isSome p entry.2 (weights_ne_temperature p w hw)
      refine ⟨{ weighted_score := acc.weighted_score + (s : ℚ) * w
                pollutants_details := acc.pollutants_details ++
                  [(entry.1, ⟨pyRoundF 2 entry.2, s, l, w⟩)]
                problematic := acc.problematic ++
                  (if s < 60 then [⟨entry.1, entry.2, s, l⟩] else []) }, ?_, ?_, ?_, ?_⟩
      · simp [calcEntry, hparse, hw, hs, hl]
      · simp [entryContribution, hparse, hw, hs]
      · simp [specIncluded, hparse, hw]
      · simp [specProblemKeys, List.filterMap_cons, hparse, hw, hs]
        split_ifs <;> simp

/-- Characterization of the `calculate_global_score` fold. -/
theorem calcFold (predictions : List (String × FloatVal)) (acc : CalcAcc) :
    ∃ acc2, predictions.foldlM calcEntry acc = some acc2 ∧
      acc2.weighted_score = acc.weighted_score + specWeightedSum predictions ∧
      acc2.pollutants_details.map Prod.fst = acc.pollutants_details.map Prod.fst ++
        (predictions.filter specIncluded).map Prod.fst ∧
      acc2.problematic.map ProblemRec.pollutant =
        acc.problematic.map ProblemRec.pollutant ++ specProblemKeys predictions := by
  induction predictions generalizing acc with
  | nil =>
    exact ⟨acc, rfl, by simp [specWeightedSum], by simp, by simp [specProblemKeys]⟩
  | cons e rest ih =>
    obtain ⟨acc1, h1, hw1, hd1, hp1⟩ := calcEntry_eq acc e
    obtain ⟨acc2, h2, hw2, hd2, hp2⟩ := ih acc1
    refine ⟨acc2, ?_, ?_, ?_, ?_⟩
    · simp [List.foldlM, h1, h2]
    · rw [hw2, hw1]
      simp [specWeightedSum]
      ring
    · rw [hd2, hd1]
      simp [List.filter_cons]
      cases hinc : specIncluded e <;> simp [hinc]
    · rw [hp2, hp1]
      simp [specProblemKeys, List.filterMap_cons]
      cases hf : (match PollutantType.ofString e.1 with
        | none => none
        | some p =>
          match WEIGHTS p, get_pollutant_score p e.2 with
          | some _, some s => if s < 60 then some e.1 else none
          | _, _ => none : Option String) <;> simp [hf]

/-- Characterization of `calculate_global_score` against the spec formulas. -/
theorem calc_characterization (predictions : List (String × FloatVal)) :
    ∃ r, calculate_global_score predictions = some r ∧
      r.global_score = pyRound 1 (specWeightedSum predictions) ∧
      r.global_level = specGlobalLevel (specWeightedSum predictions) ∧
      r.pollutants_details.map Prod.fst = (predictions.filter specIncluded).map Prod.fst ∧
      r.problematic_pollutants.map ProblemRec.pollutant = specProblemKeys predictions := by
  obtain ⟨acc, h, hw, hd, hp⟩ := calcFold predictions ⟨0, [], []⟩
  simp only [CalcAcc.weighted_score, zero_add, CalcAcc.pollutants_details,
    CalcAcc.problematic, List.map_nil, List.nil_append] at hw hd hp
  refine ⟨{ global_score := pyRound 1 acc.weighted_score
            global_level :=
              if 80 ≤ acc.weighted_score then "good"
              else if 60 ≤ acc.weighted_score then "moderate"
              else if 40 ≤ acc.weighted_score then "poor"
              else "very_poor"
            pollutants_details := acc.pollutants_details
            problematic_pollutants := acc.problematic }, ?_, ?_, ?_, ?_, ?_⟩
  · simp [calculate_global_score, h]
  · simp [hw]
  · rw [hw]
    rfl
  · simpa using hd
  · simpa using hp

/-- C6: the global score is the weighted sum (weights co2 0.35, pm25 0.30,
tvoc 0.25, humidity 0.10, summing to 1) of the included sub-scores rounded to
one decimal, with no renormalization for absent pollutants, and temperature
readings contribute nothing and never appear in the details map. -/
theorem c6_weighted_sum_no_renormalization (predictions : List (String × FloatVal))
    (h : ∀ entry ∈ predictions, (PollutantType.ofString entry.1).isSome) :
    ∃ r, calculate_global_score predictions = some r ∧
      r.global_score = pyRound 1 (specWeightedSum predictions) ∧
      WEIGHTS .co2 = some (35 / 100) ∧ WEIGHTS .pm25 = some (30 / 100) ∧
      WEIGHTS .tvoc = some (25 / 100) ∧ WEIGHTS .humidity = some (10 / 100) ∧
      (35 / 100 + 30 / 100 + 25 / 100 + 10 / 100 : ℚ) = 1 ∧
      (∀ entry ∈ predictions, PollutantType.ofString entry.1 = some .temperature →
        entryContribution entry = 0) ∧
      (∀ key ∈ r.pollutants_details.map Prod.fst,
        PollutantType.ofString key ≠ some .temperature) := by
  obtain ⟨r, hr, hs, _, hd, _⟩ := calc_characterization predictions
  refine ⟨r, hr, hs, rfl, rfl, rfl, rfl, by norm_num, ?_, ?_⟩
  · intro entry _ hparse
    simp [entryContribution, hparse, WEIGHTS]
  · intro key hk
    rw [hd] at hk
    simp only [List.mem_map, List.mem_filter] at hk
    obtain ⟨entry, ⟨_, hinc⟩, rfl⟩ := hk
    intro hparse
    simp [specIncluded, hparse, WEIGHTS] at hinc

/-- C6 witness: the weighted-sum characterization at the example input. -/
theorem c6_weighted_sum_no_renormalization_witness :
    ∃ r, calculate_global_score examplePredictions = some r ∧
      r.global_score = pyRound 1 (specWeightedSum examplePredictions) ∧
      WEIGHTS .co2 = some (35 / 100) ∧ WEIGHTS .pm25 = some (30 / 100) ∧
      WEIGHTS .tvoc = some (25 / 100) ∧ WEIGHTS .humidity = some (10 / 100) ∧
      (35 / 100 + 30 / 100 + 25 / 100 + 10 / 100 : ℚ) = 1 ∧
      (∀ entry ∈ examplePredictions, PollutantType.ofString entry.1 = some .temperature →
        entryContribution entry = 0) ∧
      (∀ key ∈ r.pollutants_details.map Prod.fst,
        PollutantType.ofString key ≠ some .temperature) :=
  c6_weighted_sum_no_renormalization examplePredictions (by
    intro entry he
    fin_cases he <;> rfl)

/-- C8: the global level buckets the weighted score at 80/60/40, and the
problematic list holds exactly the included pollutants scoring below 60,
in input iteration order. -/
theorem c8_global_level_and_problematic (predictions : List (String × FloatVal))
    (r : GlobalResult) (h : calculate_global_score predictions = some r) :
    r.global_level = specGlobalLevel (specWeightedSum predictions) ∧
    r.problematic_pollutants.map ProblemRec.pollutant = specProblemKeys predictions := by
  obtain ⟨r2, h2, _, hl, _, hp⟩ := calc_characterization predictions
  rw [h] at h2
  injection h2 with h2
  subst h2
  exact ⟨hl, hp⟩

/-- C8 witness: the characterization at the empty input map. -/
theorem c8_global_level_and_problematic_witness :
    (GlobalResult.mk (pyRound 1 0) "very_poor" [] []).global_level =
      specGlobalLevel (specWeightedSum []) ∧
    (GlobalResult.mk (pyRound 1 0) "very_poor" [] []).problematic_pollutants.map
      ProblemRec.pollutant = specProblemKeys [] :=
  c8_global_level_and_problematic [] ⟨pyRound 1 0, "very_poor", [], []⟩ rfl

/-- A risk level counts as severe when it is critical or danger. -/
def isCritOrDanger (level : String) : Bool :=
  level = "critical" || level = "danger"

/-- The escalation policy as the claim states it: priorities of the actions
emitted for one metric, by the first matching rule. -/
def specRiskPriorities (metric : String) (current predicted : ℚ) : List String :=
  match CRITICAL_THRESHOLDS metric with
  | none => []
  | some thresholds =>
    let current_level := _get_risk_level current thresholds
    let predicted_level := _get_risk_level predicted thresholds
    if isCritOrDanger current_level ∧ current < predicted then ["urgent"]
    else if isCritOrDanger current_level then
      (if isCritOrDanger predicted_level then ["high"] else [])
    else if isCritOrDanger predicted_level then
      [if predicted_level = "danger" then "high" else "medium"]
    else []

/-- The claim's third rule fires: predicted level severe, current level not. -/
def specRule3 (metric : String) (current predicted : ℚ) : Prop :=
  match CRITICAL_THRESHOLDS metric with
  | none => False
  | some thresholds =>
    isCritOrDanger (_get_risk_level predicted thresholds) = true ∧
    isCritOrDanger (_get_risk_level current thresholds) = false

/-- `_get_risk_level` returns one of the four level names. -/
theorem riskLevel_cases (v : ℚ) (t : RiskThresholds) :
    _get_risk_level v t = "danger" ∨ _get_risk_level v t = "critical" ∨
    _get_risk_level v t = "warning" ∨ _get_risk_level v t = "good" := by
  unfold _get_risk_level
  split_ifs <;> simp

/-- Characterization of `processMetric` for any metric whose threshold and
message tables are present. -/
theorem processMetric_maps (metric : String) (t : RiskThresholds)
    (msgs : List (String × String)) (mc md : String)
    (ht : CRITICAL_THRESHOLDS metric = some t)
    (hms : RECOMMENDED_ACTIONS metric = some msgs)
    (hcm : dictGet msgs "critical" = some mc)
    (hdm : dictGet msgs "danger" = some md)
    (c p : ℚ) (fm : ℕ) :
    ((processMetric metric c p fm).map fun r => r.2.map RiskActionRec.priority)
        = some (specRiskPriorities metric c p) ∧
    ((processMetric metric c p fm).map fun r => r.1.change_percent)
        = some (if 0 < c then pyRound 2 ((p - c) / c * 100) else 0) ∧
    (specRule3 metric c p →
      ((processMetric metric c p fm).map
          fun r => r.2.map RiskActionRec.estimated_time_to_critical)
        = some [toString (fm * 5) ++ " minutes"]) := by
  rcases riskLevel_cases c t with hcl | hcl | hcl | hcl <;>
    rcases riskLevel_cases p t with hpl | hpl | hpl | hpl <;>
    by_cases hcp : c < p <;>
    simp [processMetric, ht, hms, hcm, hdm, hcl, hpl, hcp,
      specRiskPriorities, specRule3, isCritOrDanger]

/-- C5: for each monitored metric with both values present, the emitted action
follows the first matching escalation rule: severe current level and increasing
trend gives `urgent`; severe current level, decreasing trend and still-severe
predicted level gives `high` (else nothing); severe predicted level from a
non-severe current level gives `high` for danger else `medium`, with the
estimated time to critical equal to the forecast horizon. -/
theorem c5_escalation_policy (metric : String) (hm : metric ∈ ["co2", "pm25", "tvoc"])
    (c p : ℚ) (fm : ℕ) :
    ((processMetric metric c p fm).map fun r => r.2.map RiskActionRec.priority)
        = some (specRiskPriorities metric c p) ∧
    (specRule3 metric c p →
      ((processMetric metric c p fm).map
          fun r => r.2.map RiskActionRec.estimated_time_to_critical)
        = some [toString (fm * 5) ++ " minutes"]) := by
  simp only [List.mem_cons, List.not_mem_nil, or_false] at hm
  rcases hm with rfl | rfl | rfl
  · exact ⟨(processMetric_maps "co2" ⟨1000, 1400, 2000⟩ _ _ _ rfl rfl rfl rfl c p fm).1,
      (processMetric_maps "co2" ⟨1000, 1400, 2000⟩ _ _ _ rfl rfl rfl rfl c p fm).2.2⟩
  · exact ⟨(processMetric_maps "pm25" ⟨25, 50, 100⟩ _ _ _ rfl rfl rfl rfl c p fm).1,
      (processMetric_maps "pm25" ⟨25, 50, 100⟩ _ _ _ rfl rfl rfl rfl c p fm).2.2⟩
  · exact ⟨(processMetric_maps "tvoc" ⟨300, 500, 1000⟩ _ _ _ rfl rfl rfl rfl c p fm).1,
      (processMetric_maps "tvoc" ⟨300, 500, 1000⟩ _ _ _ rfl rfl rfl rfl c p fm).2.2⟩

/-- C5 witness: co2 current 2100 (danger), predicted 2200, increasing: urgent. -/
theorem c5_escalation_policy_witness :
    ((processMetric "co2" 2100 2200 6).map fun r => r.2.map RiskActionRec.priority)
        = some (specRiskPriorities "co2" 2100 2200) ∧
    (specRule3 "co2" 2100 2200 →
      ((processMetric "co2" 2100 2200 6).map
          fun r => r.2.map RiskActionRec.estimated_time_to_critical)
        = some [toString (6 * 5) ++ " minutes"]) :=
  c5_escalation_policy "co2" (by simp) 2100 2200 6

/-- C7 counterexample: change_percent is 0 for every non-positive current
value, not only for 0 (current -50, predicted -25 gives 0 though the formula
gives -50), and a positive case is rounded to two decimals (current 3,
predicted 4 gives 33.33, not the exact 100/3). -/
theorem c7_counterexample :
    ((processMetric "co2" (-50) (-25) 0).map fun r => r.1.change_percent) = some 0 ∧
    ((-25 : ℚ) - (-50)) / (-50) * 100 ≠ 0 ∧
    ((processMetric "co2" 3 4 0).map fun r => r.1.change_percent) = some (3333 / 100) ∧
    ((4 : ℚ) - 3) / 3 * 100 ≠ 3333 / 100 := by
  refine ⟨?_, by norm_num, ?_, by norm_num⟩
  · have h := (processMetric_maps "co2" ⟨1000, 1400, 2000⟩ _ _ _ rfl rfl rfl rfl
      (-50) (-25) 0).2.1
    rw [h]
    norm_num
  · have h := (processMetric_maps "co2" ⟨1000, 1400, 2000⟩ _ _ _ rfl rfl rfl rfl 3 4 0).2.1
    rw [h]
    have hr : pyRound 2 ((100 : ℚ) / 3) = 3333 / 100 := by
      unfold pyRound roundHalfEven
      norm_num
    norm_num [hr]

/-- C7 (amended): for every monitored metric, change_percent equals
`round((predicted - current) / current * 100, 2)` when the current value is
strictly positive, and 0 whenever it is zero or negative (never failing). -/
theorem c7_amended_change_percent (metric : String) (hm : metric ∈ ["co2", "pm25", "tvoc"])
    (c p : ℚ) (fm : ℕ) :
    ((processMetric metric c p fm).map fun r => r.1.change_percent)
        = some (if 0 < c then pyRound 2 ((p - c) / c * 100) else 0) := by
  simp only [List.mem_cons, List.not_mem_nil, or_false] at hm
  rcases hm with rfl | rfl | rfl
  · exact (processMetric_maps "co2" ⟨1000, 1400, 2000⟩ _ _ _ rfl rfl rfl rfl c p fm).2.1
  · exact (processMetric_maps "pm25" ⟨25, 50, 100⟩ _ _ _ rfl rfl rfl rfl c p fm).2.1
  · exact (processMetric_maps "tvoc" ⟨300, 500, 1000⟩ _ _ _ rfl rfl rfl rfl c p fm).2.1

/-- C7 witness: the amended change_percent at current 3, predicted 4. -/
theorem c7_amended_change_percent_witness :
    ((processMetric "co2" 3 4 0).map fun r => r.1.change_percent)
        = some (if (0 : ℚ) < 3 then pyRound 2 (((4 : ℚ) - 3) / 3 * 100) else 0) :=
  c7_amended_change_percent "co2" (by simp) 3 4 0

/-- A usable module (present, available, controllable) always yields an action. -/
theorem create_action_isSome_of_usable (room_modules : RoomModules) (m : String)
    (h : room_modules.has_module m = true) (action_type : ActionType)
    (pollutant : String) (value : FloatVal) (level : String) :
    ∃ a, _create_action action_type m pollutant value level room_modules = some a := by
  unfold RoomModules.has_module at h
  cases hg : dictGet room_modules.modules m with
  | none => rw [hg] at h; simp at h
  | some cap =>
    rw [hg] at h
    simp only [Bool.and_eq_true] at h
    simp [_create_action, hg, h.2]

/-- First usable module of a module list, per the spec scan. -/
def firstUsableModule (room_modules : RoomModules) : List String → Option String
  | [] => none
  | m :: rest =>
    if room_modules.has_module m then some m
    else firstUsableModule room_modules rest

/-- At most one action per problematic pollutant as the claim describes it:
take the first usable module of the primary list and that module's first
candidate action type; if no primary module is usable, do the same over the
secondary list. -/
def specSelectOne (problem : ProblemRec) (room_modules : RoomModules) : Option ActionRec := do
  let pollutant_enum ← PollutantType.ofString problem.pollutant
  let rules ← ACTION_RULES pollutant_enum
  match firstUsableModule room_modules rules.primary with
  | some m => do
      let acts ← dictGet rules.actions m
      let a ← acts.head?
      _create_action a m problem.pollutant problem.value problem.level room_modules
  | none =>
    match firstUsableModule room_modules rules.secondary with
    | some m => do
        let acts ← dictGet rules.actions m
        let a ← acts.head?
        _create_action a m problem.pollutant problem.value problem.level room_modules
    | none => none

/-- The per-pollutant selection of the code equals the claim's first-match
description, for the rule table as declared. -/
theorem selectForProblem_spec (problem : ProblemRec) (room : RoomModules) :
    selectForProblem problem room = (specSelectOne problem room).toList := by
  unfold selectForProblem specSelectOne
  cases hparse : PollutantType.ofString problem.pollutant with
  | none => simp
  | some pe =>
    cases pe
    case co2 =>
      by_cases h1 : room.has_module "fenetre"
      · obtain ⟨a, ha⟩ := create_action_isSome_of_usable room "fenetre" h1
          .OUVRIR_FENETRE problem.pollutant problem.value problem.level
        simp [ACTION_RULES, scanPrimary, firstUsableModule, h1, tryActionTypes,
          dictGetD, dictGet, ha]
      · by_cases h2 : room.has_module "ventilation"
        · obtain ⟨a, ha⟩ := create_action_isSome_of_usable room "ventilation" h2
            .ACTIVER_VENTILATION problem.pollutant problem.value problem.level
          simp [ACTION_RULES, scanPrimary, firstUsableModule, h1, h2, tryActionTypes,
            dictGetD, dictGet, ha, scanSecondary]
        · simp [ACTION_RULES, scanPrimary, firstUsableModule, h1, h2, scanSecondary]
    case pm25 =>
      by_cases h1 : room.has_module "purificateur"
      · obtain ⟨a, ha⟩ := create_action_isSome_of_usable room "purificateur" h1
          .ACTIVER_PURIFICATEUR problem.pollutant problem.value problem.level
        simp [ACTION_RULES, scanPrimary, firstUsableModule, h1, tryActionTypes,
          dictGetD, dictGet, ha]
      · by_cases h2 : room.has_module "ventilation"
        · obtain ⟨a, ha⟩ := create_action_isSome_of_usable room "ventilation" h2
            .ACTIVER_VENTILATION problem.pollutant problem.value problem.level
          simp [ACTION_RULES, scanPrimary, firstUsableModule, h1, h2, tryActionTypes,
            dictGetD, dictGet, ha, scanSecondary]
        · simp [ACTION_RULES, scanPrimary, firstUsableModule, h1, h2, scanSecondary]
    case tvoc =>
      by_cases h1 : room.has_module "fenetre"
      · obtain ⟨a, ha⟩ := create_action_isSome_of_usable room "fenetre" h1
          .OUVRIR_FENETRE problem.pollutant problem.value problem.level
        simp [ACTION_RULES, scanPrimary, firstUsableModule, h1, tryActionTypes,
          dictGetD, dictGet, ha]
      · by_cases h2 : room.has_module "ventilation"
        · obtain ⟨a, ha⟩ := create_action_isSome_of_usable room "ventilation" h2
            .ACTIVER_VENTILATION problem.pollutant problem.value problem.level
          simp [ACTION_RULES, scanPrimary, firstUsableModule, h1, h2, tryActionTypes,
            dictGetD, dictGet, ha]
        · by_cases h3 : room.has_module "purificateur"
          · obtain ⟨a, ha⟩ := create_action_isSome_of_usable room "purificateur" h3
              .ACTIVER_PURIFICATEUR problem.pollutant problem.value problem.level
            simp [ACTION_RULES, scanPrimary, firstUsableModule, h1, h2, h3,
              tryActionTypes, dictGetD, dictGet, ha]
          · simp [ACTION_RULES, scanPrimary, firstUsableModule, h1, h2, h3, scanSecondary]
    case humidity =>
      by_cases h1 : room.has_module "ventilation"
      · obtain ⟨a, ha⟩ := create_action_isSome_of_usable room "ventilation" h1
          .ACTIVER_VENTILATION problem.pollutant problem.value problem.level
        simp [ACTION_RULES, scanPrimary, firstUsableModule, h1, tryActionTypes,
          dictGetD, dictGet, ha]
      · by_cases h2 : room.has_module "clim"
        · obtain ⟨a, ha⟩ := create_action_isSome_of_usable room "clim" h2
            .ACTIVER_CLIM problem.pollutant problem.value problem.level
          simp [ACTION_RULES, scanPrimary, firstUsableModule, h1, h2, tryActionTypes,
            dictGetD, dictGet, ha, scanSecondary]
        · simp [ACTION_RULES, scanPrimary, firstUsableModule, h1, h2, scanSecondary]
    case temperature =>
      simp [ACTION_RULES]

/-- The `select_actions` fold appends the per-pollutant selections in order. -/
theorem select_actions_foldl (iaq : GlobalResult) (room : RoomModules)
    (l : List ProblemRec) (acc : List ActionRec) :
    l.foldl (fun acc problem => acc ++ selectForProblem problem room) acc =
      acc ++ (l.map fun problem => selectForProblem problem room).join := by
  induction l generalizing acc with
  | nil => simp
  | cons p rest ih => simp [List.foldl_cons, ih, List.append_assoc]

/-- Each per-pollutant spec selection contributes at most one action. -/
theorem specSelect_join_length_le (room : RoomModules) (l : List ProblemRec) :
    ((l.map fun problem => (specSelectOne problem room).toList).join).length ≤ l.length := by
  induction l with
  | nil => simp
  | cons p rest ih =>
    have h1 : ((specSelectOne p room).toList).length ≤ 1 := by
      cases specSelectOne p room <;> simp
    simp only [List.join] at ih
    simp only [List.map_cons, List.join, List.flatten_cons, List.length_append,
      List.length_cons]
    omega

/-- A room profile in which only the window is usable: the window is available
and controllable, ventilation and purifier exist but are not usable. -/
def exampleWindowRoom : RoomModules :=
  ⟨"Maison", "Chambre",
    [("fenetre", ⟨"fenetre", true, true, some "fermé", none⟩),
     ("ventilation", ⟨"ventilation", false, false, none, some [0, 1, 2, 3]⟩),
     ("purificateur", ⟨"purificateur", false, false, none, none⟩)]⟩

/-- An IAQ analysis whose problematic list is [co2, tvoc]. -/
def exampleWindowAnalysis : GlobalResult :=
  ⟨58, "poor", [], [⟨"co2", .fin 1450, 40, "poor"⟩, ⟨"tvoc", .fin 650, 40, "poor"⟩]⟩

/-- C4: `select_actions` emits, independently for each problematic pollutant in
order, at most one action — built from the first usable module of the primary
list and that module's first candidate action type, falling back to the same
first-match scan of the secondary list — so its output is the concatenation of
the per-pollutant first-match selections, its length never exceeds the number
of problematic pollutants, and on problematic = [co2, tvoc] with only the
window usable it returns exactly two open-window actions on the window. -/
theorem c4_select_actions_first_match :
    (∀ (iaq_analysis : GlobalResult) (room_modules : RoomModules),
      select_actions iaq_analysis room_modules =
        (iaq_analysis.problematic_pollutants.map
          fun problem => (specSelectOne problem room_modules).toList).join ∧
      (select_actions iaq_analysis room_modules).length ≤
        iaq_analysis.problematic_pollutants.length) ∧
    (select_actions exampleWindowAnalysis exampleWindowRoom).map
        (fun a => (a.action_type, a.module_type))
      = [("ouvrir_fenetre", "fenetre"), ("ouvrir_fenetre", "fenetre")] := by
  have key : ∀ (iaq : GlobalResult) (room : RoomModules),
      select_actions iaq room =
        (iaq.problematic_pollutants.map
          fun problem => (specSelectOne problem room).toList).join := by
    intro iaq room
    unfold select_actions
    rw [select_actions_foldl iaq room iaq.problematic_pollutants []]
    simp only [List.nil_append]
    congr 1
    exact List.map_congr_left fun problem _ => selectForProblem_spec problem room
  refine ⟨fun iaq room => ⟨key iaq room, ?_⟩, ?_⟩
  · rw [key iaq room]
    exact specSelect_join_length_le room iaq.problematic_pollutants
  · rfl

/-- C10: for a controllable module, ventilation activation and boost actions
carry a `power_level` parameter of max(power_levels) when the level is
very_poor, max - 1 when poor, and floor(max / 2) otherwise; with no declared
power_levels the action is still built, with an empty parameter set. The
declared example list [0,1,2,3] yields 3, 2 and 1 respectively. -/
theorem c10_power_level_parameters (action_type : ActionType)
    (h_at : action_type = .ACTIVER_VENTILATION ∨ action_type = .AUGMENTER_VENTILATION)
    (module_type pollutant : String) (value : FloatVal) (level : String)
    (room_modules : RoomModules) (cap : ModuleCapability)
    (h_mod : dictGet room_modules.modules module_type = some cap)
    (h_ctrl : cap.can_control = true) :
    (∀ x rest, cap.power_levels = some (x :: rest) →
      ((_create_action action_type module_type pollutant value level room_modules).map
          ActionRec.parameters)
        = some [("power_level",
            if level = "very_poor" then listMax x rest
            else if level = "poor" then listMax x rest - 1
            else Int.fdiv (listMax x rest) 2)]) ∧
    (cap.power_levels = none →
      ((_create_action action_type module_type pollutant value level room_modules).map
          ActionRec.parameters)
        = some []) ∧
    (listMax 0 [1, 2, 3] = 3 ∧ listMax 0 [1, 2, 3] - 1 = 2 ∧
      Int.fdiv (listMax 0 [1, 2, 3]) 2 = 1) := by
  refine ⟨?_, ?_, by decide⟩
  · intro x rest hpl
    rcases h_at with rfl | rfl <;>
      simp [_create_action, h_mod, h_ctrl, hpl] <;>
      split_ifs <;> rfl
  · intro hpl
    rcases h_at with rfl | rfl <;>
      simp [_create_action, h_mod, h_ctrl, hpl]

/-- C10 witness: a ventilation module with power_levels [0,1,2,3] at level
very_poor gets power_level max([0,1,2,3]), and with no power_levels the
parameter set is empty. -/
theorem c10_power_level_parameters_witness :
    ((_create_action .ACTIVER_VENTILATION "ventilation" "co2" (.fin 2100) "very_poor"
        ⟨"Maison", "Chambre",
          [("ventilation", ⟨"ventilation", true, true, none, some [0, 1, 2, 3]⟩)]⟩).map
        ActionRec.parameters)
      = some [("power_level",
          if "very_poor" = "very_poor" then listMax 0 [1, 2, 3]
          else if "very_poor" = "poor" then listMax 0 [1, 2, 3] - 1
          else Int.fdiv (listMax 0 [1, 2, 3]) 2)] :=
  (c10_power_level_parameters .ACTIVER_VENTILATION (Or.inl rfl) "ventilation" "co2"
    (.fin 2100) "very_poor"
    ⟨"Maison", "Chambre",
      [("ventilation", ⟨"ventilation", true, true, none, some [0, 1, 2, 3]⟩)]⟩
    ⟨"ventilation", true, true, none, some [0, 1, 2, 3]⟩ rfl rfl).1 0 [1, 2, 3] rfl
